import Mathlib

/-!
Shallow embedding of `src/dockershrink/ai.py` (class `AIService`, method
`add_multistage_builds`): the prompt templates, the prompt construction, the
outbound message list, and the response sanitization chain, together with
proofs about them.
-/

namespace Dockershrink

/-- Model of the Python whitespace predicate `str.isspace()`: the set of code
points stripped by `str.strip()` with no argument (used at ai.py line 97). -/
def pyWhitespace (c : Char) : Bool :=
  let n := c.toNat
  (0x09 ≤ n && n ≤ 0x0d) || n == 0x20 || (0x1c ≤ n && n ≤ 0x1f) ||
    n == 0x85 || n == 0xa0 || n == 0x1680 || (0x2000 ≤ n && n ≤ 0x200a) ||
    n == 0x2028 || n == 0x2029 || n == 0x202f || n == 0x205f || n == 0x3000

/-- Argument of the second strip at ai.py line 97: the string `"```"`, read by
Python `str.strip` as a set of characters (here the single backtick char). -/
def fenceChars : String := "```"

/-- Membership in the `.strip("```")` character set. -/
def isFenceChar (c : Char) : Bool := fenceChars.data.contains c

/-- Model of Python `str.strip(p)` on a character list: drop the longest runs of
characters satisfying `p` from both ends. -/
def pyStripList (p : Char → Bool) (l : List Char) : List Char :=
  ((l.dropWhile p).reverse.dropWhile p).reverse

/-- Python `str.strip` lifted to strings. -/
def pyStrip (p : Char → Bool) (s : String) : String :=
  ⟨pyStripList p s.data⟩

/-- Line 97 of ai.py: `response.strip().strip("```").strip()`. -/
def sanitize (response : String) : String :=
  pyStrip pyWhitespace (pyStrip isFenceChar (pyStrip pyWhitespace response))

/-- Constant `_multistage_system_prompt` of ai.py (lines 8-30), transcribed
verbatim (Python triple-quoted string including its leading and trailing
newline). -/
def multistage_system_prompt : String :=
  "\nYou are an expert software and DevOps engineer who specializes in Docker and NodeJS backend applications.\n\nGiven a Nodejs project that contains a Docker image definition to containerize it, your goal is to reduce the size of the docker image as much as possible, while still keeping the code legible and developer-friendly.\n\nAs part of this request, your only task is to modify the given single-stage Dockerfile to adopt Multistage builds.\nMultistage is beneficial because the final image produced (final stage) uses a slim base image and only contains things that we put in it.\nCreate a final stage in the Dockerfile which only contains the application source code, its dependencies (excluding \"devDependencies\" from package.json) and anything else you think is necessary for the app at runtime or relevant to the final image.\n\n* The final stage must use a slim base image if possible. If the previous stage uses a specific version of NodeJS, make sure to use the same version.\n* If possible, set the `NODE_ENV` environment variable to `production`. This should be done BEFORE running any commands related to nodejs or npm. This ensures that dev dependencies are not installed in the final stage.\n* Do a fresh install of the dependencies (node_modules) in the final stage and exclude dev dependencies. Do not change the installation commands in the previous stage and don't copy node_modules from the previous stage.\n* Try to keep your code changes as consistent with the original code as possible. For example, if the previous stage uses \"npm install\" for installing dependencies, don't replace it with \"npm ci\". Try to use \"install\" only.\n* If the previous stage contains some metadata such as LABEL statements, make sure to include them in the final stage as well, if you think it is relevant.\n* Comments should be added only in the new stage that you're writing. Don't add any comments in the previous stage unless you need to make an important remark. But don't remove any comments that already exist.\n* If the previous stage contains any `RUN` statements invoking any npm scripts like `npm run build`, the commands in this script will also be shared with you so you can understand its behaviour.\n* Do not delete any statements originally present in the Dockerfile. If you don't understand what they're being used for (like custom scripts), just ignore them. Don't include them to the new stage.\n\nAfter writing all the code, review it step-by-step and think what the final image would contain to ensure you didn't accidentally leave out anything important.\n\n* Return only the Dockerfile code in your reply\n* Do not include any additional formatting, such as markdown code blocks\n"

/-- Constant `_multistage_user_prompt` of ai.py (lines 32-38) already applied to
the dockerfile, modelling `.format(dockerfile=dockerfile)` at line 63. -/
def multistage_user_prompt (dockerfile : String) : String :=
  "\nOptimize this Dockerfile:\n\n```\n" ++ dockerfile ++ "\n```\n"

/-- Constant `_prompt_npm_scripts_invoked` of ai.py (lines 40-51), transcribed
verbatim (braces written with hex escapes). -/
def prompt_npm_scripts_invoked : String :=
  "\n-- Details of NPM scripts invoked --\n\nNOTE:\n- \"script\" is the npm script you see in the Dockerfile (eg- \"npm run test\")\n- \"commands\" is the set of commands defined inside package.json for the particular npm script.\n  For example, if package.json is `\x7b\"scripts\": \x7b\"test\": \"gulp .\"\x7d\x7d`, then this field's value will be \"gulp .\" because the \"script\" invoked is \"test\".\n- the commands for all npm scripts are extracted from package.json.\n\nLIST OF SCRIPTS:\n\n"

/-- Model of one element of the `scripts: List[Dict[str, str]]` argument: a dict
with keys "script" and "commands" (ai.py lines 60-71). -/
structure Script where
  script : String
  commands : String
deriving DecidableEq

/-- Value of `os.linesep` on the POSIX target platform (ai.py line 75). -/
def linesep : String := "\n"

/-- The f-string at ai.py lines 70-72 describing `scripts[i]`; `i` is the
0-based loop index, rendered 1-based. The f-string contains a literal newline
between the script part and the commands part and ends with a newline. -/
def script_description (i : Nat) (s : Script) : String :=
  toString (i + 1) ++ ". script: `" ++ s.script ++ "`\ncommands: `" ++
    s.commands ++ "`\n"

/-- Model of Python `str.join`: `join_linesep l` is `os.linesep.join(l)`
(ai.py line 75). -/
def join_linesep : List String → String
  | [] => ""
  | [d] => d
  | d :: rest => d ++ linesep ++ join_linesep rest

/-- The `scripts_description` value built by the loop at ai.py lines 66-75. -/
def scripts_description (scripts : List Script) : String :=
  join_linesep (scripts.enum.map fun p => script_description p.1 p.2)

/-- The final `user_prompt` value (ai.py lines 63-76): the formatted user
template, extended with the npm-scripts block when `scripts` is non-empty
(Python truthiness of a list). -/
def add_multistage_builds_user_prompt (dockerfile : String)
    (scripts : List Script) : String :=
  if scripts.isEmpty then multistage_user_prompt dockerfile
  else multistage_user_prompt dockerfile ++ prompt_npm_scripts_invoked ++
    scripts_description scripts

/-- Message roles used at ai.py lines 78-87. -/
inductive Role where
  | system : Role
  | user : Role
deriving DecidableEq

/-- One chat message `{"role": ..., "content": ...}` (ai.py lines 79-86). -/
structure Message where
  role : Role
  content : String
deriving DecidableEq

/-- The `messages` list sent to the provider (ai.py lines 78-87). -/
def add_multistage_builds_messages (dockerfile : String)
    (scripts : List Script) : List Message :=
  [{ role := Role.system, content := multistage_system_prompt },
   { role := Role.user,
     content := add_multistage_builds_user_prompt dockerfile scripts }]

/-- Python exceptions that the modelled code can raise on its own. -/
inductive PyError where
  /-- AttributeError raised at ai.py line 97 when
  `completion.choices[0].message.content` is `None`: `.strip()` is called on
  `None`. -/
  | attributeError : PyError
deriving DecidableEq

/-- Lines 94-99 of ai.py: take the first choice's content (possibly `None`) and
sanitize it. A `None` content raises AttributeError at the `.strip()` call. -/
def extract_response (content : Option String) : Except PyError String :=
  match content with
  | none => Except.error PyError.attributeError
  | some r => Except.ok (sanitize r)

/-- Observable external actions performed by `add_multistage_builds`. The only
one in its body is the single chat-completions request at ai.py line 90: the
method touches no filesystem and persists nothing. -/
inductive Effect where
  | providerCall : List Message → Effect
deriving DecidableEq

/-- Whole-method model of `AIService.add_multistage_builds` (ai.py lines
60-99). The provider is a function from the outbound message list to the
(possibly `None`) content of the first choice; the run returns the trace of
external actions together with the method result. -/
def add_multistage_builds_run (dockerfile : String) (scripts : List Script)
    (provider : List Message → Option String) :
    List Effect × Except PyError String :=
  let msgs := add_multistage_builds_messages dockerfile scripts
  ([Effect.providerCall msgs], extract_response (provider msgs))

/-- Containment of `pat` in `s` as a contiguous substring. -/
def strContains (s pat : String) : Prop :=
  pat.data <:+: s.data

instance (s pat : String) : Decidable (strContains s pat) :=
  inferInstanceAs (Decidable (pat.data <:+: s.data))

/-- Basic check: the sanitize chain on a plain string is the identity. -/
theorem sanitize_plain : sanitize "FROM node" = "FROM node" := by decide

/-- The head of a `dropWhile p` result never satisfies `p`. -/
theorem dropWhile_head?_false (p : Char → Bool) (l : List Char) (a : Char)
    (h : (l.dropWhile p).head? = some a) : p a = false := by
  have hm := List.head?_dropWhile_not p l
  rw [h] at hm
  exact hm

/-- A list whose head does not satisfy `p` is unchanged by `dropWhile p`. -/
theorem dropWhile_eq_self_of (p : Char → Bool) (l : List Char)
    (h : ∀ a, l.head? = some a → p a = false) : l.dropWhile p = l := by
  cases hl : l with
  | nil => rfl
  | cons b bs =>
    have hb : p b = false := h b (by rw [hl]; rfl)
    simp [List.dropWhile_cons_of_neg, hb]

/-- The head of a both-ends strip never satisfies the strip predicate. -/
theorem pyStripList_head? (p : Char → Bool) (l : List Char) (a : Char)
    (h : (pyStripList p l).head? = some a) : p a = false := by
  obtain ⟨u, hu⟩ := List.dropWhile_suffix (l := (l.dropWhile p).reverse) p
  have hm : l.dropWhile p = pyStripList p l ++ u.reverse := by
    have h2 := congrArg List.reverse hu
    simpa [pyStripList, List.reverse_append] using h2.symm
  have hh : (l.dropWhile p).head? = some a := by
    rw [hm]
    cases hps : pyStripList p l with
    | nil => rw [hps] at h; simp at h
    | cons b bs =>
      rw [hps] at h
      simpa using h
  exact dropWhile_head?_false p l a hh

/-- The last element of a both-ends strip never satisfies the strip predicate. -/
theorem pyStripList_getLast? (p : Char → Bool) (l : List Char) (a : Char)
    (h : (pyStripList p l).getLast? = some a) : p a = false := by
  have hh : ((l.dropWhile p).reverse.dropWhile p).head? = some a := by
    have h2 : (pyStripList p l).reverse.head? = some a := by
      rw [List.head?_reverse]
      exact h
    simpa [pyStripList] using h2
  exact dropWhile_head?_false p _ a hh

/-- A list clean at both ends is unchanged by the both-ends strip. -/
theorem pyStripList_eq_self (p : Char → Bool) (l : List Char)
    (h1 : ∀ a, l.head? = some a → p a = false)
    (h2 : ∀ a, l.getLast? = some a → p a = false) : pyStripList p l = l := by
  have e1 : l.dropWhile p = l := dropWhile_eq_self_of p l h1
  have e2 : l.reverse.dropWhile p = l.reverse := by
    apply dropWhile_eq_self_of
    intro a ha
    rw [List.head?_reverse] at ha
    exact h2 a ha
  simp [pyStripList, e1, e2]

/-- The both-ends strip of a list is a sublist of it. -/
theorem pyStripList_sublist (p : Char → Bool) (l : List Char) :
    List.Sublist (pyStripList p l) l := by
  have s1 : List.Sublist (l.dropWhile p) l := List.dropWhile_sublist p
  have s2 : List.Sublist ((l.dropWhile p).reverse.dropWhile p) (l.dropWhile p).reverse :=
    List.dropWhile_sublist p
  have s3 := s2.reverse
  rw [List.reverse_reverse] at s3
  exact (s3 : List.Sublist (pyStripList p l) (l.dropWhile p)).trans s1

/-- A string clean at both ends is unchanged by `pyStrip`. -/
theorem pyStrip_eq_self (p : Char → Bool) (s : String)
    (h1 : ∀ a, s.data.head? = some a → p a = false)
    (h2 : ∀ a, s.data.getLast? = some a → p a = false) : pyStrip p s = s := by
  show String.mk (pyStripList p s.data) = s
  rw [pyStripList_eq_self p s.data h1 h2]

/-- The sanitized response never begins with Python whitespace. -/
theorem sanitize_head? (x : String) (a : Char)
    (h : (sanitize x).data.head? = some a) : pyWhitespace a = false :=
  pyStripList_head? pyWhitespace _ a h

/-- The sanitized response never ends with Python whitespace. -/
theorem sanitize_getLast? (x : String) (a : Char)
    (h : (sanitize x).data.getLast? = some a) : pyWhitespace a = false :=
  pyStripList_getLast? pyWhitespace _ a h

/-- A contiguous-substring witness survives extension on the left. -/
theorem isInfix_append_left {l₁ l₂ : List Char} (l₃ : List Char)
    (h : l₁ <:+: l₂) : l₁ <:+: l₃ ++ l₂ := by
  obtain ⟨u, v, rfl⟩ := h
  exact ⟨l₃ ++ u, v, by simp⟩

/-- Every member of a joined list occurs contiguously in the join. -/
theorem mem_join_linesep (x : String) (l : List String) (hx : x ∈ l) :
    strContains (join_linesep l) x := by
  induction l with
  | nil => cases hx
  | cons d rest ih =>
    cases rest with
    | nil =>
      have hxd : x = d := by simpa using hx
      subst hxd
      exact ⟨[], [], by simp [join_linesep]⟩
    | cons e t =>
      rcases List.mem_cons.mp hx with hxd | hxm
      · subst hxd
        show x.data <:+: (join_linesep (x :: e :: t)).data
        refine ⟨[], linesep.data ++ (join_linesep (e :: t)).data, ?_⟩
        simp [join_linesep, String.data_append, List.append_assoc]
      · have h2 : x.data <:+: (join_linesep (e :: t)).data := ih hxm
        have h3 := isInfix_append_left ((d ++ linesep).data) h2
        show x.data <:+: (join_linesep (d :: e :: t)).data
        simpa [join_linesep, String.data_append, List.append_assoc] using h3

/-- The description of the i-th script is among the mapped descriptions. -/
theorem script_description_mem (scripts : List Script) (i : Nat)
    (hi : i < scripts.length) :
    script_description i (scripts.get ⟨i, hi⟩) ∈
      scripts.enum.map fun p => script_description p.1 p.2 := by
  have hmem : (i, scripts.get ⟨i, hi⟩) ∈ scripts.enum := by
    rw [List.mk_mem_enum_iff_getElem?]
    simp [List.getElem?_eq_getElem, hi, List.get_eq_getElem]
  exact List.mem_map.mpr ⟨(i, scripts.get ⟨i, hi⟩), hmem, rfl⟩

/-- A nonempty pattern, none of whose characters occurs in `p`, that occurs in
`p ++ x` occurs in `x`. -/
theorem sub_strip_left (t : List Char) (ht : t ≠ []) :
    ∀ (p x : List Char), (∀ c ∈ t, c ∉ p) → t <:+: p ++ x → t <:+: x := by
  intro p
  induction p with
  | nil => intro x _ h; simpa using h
  | cons a p' ih =>
    intro x hc h
    obtain ⟨u, v, huv⟩ := h
    cases u with
    | nil =>
      cases t with
      | nil => exact absurd rfl ht
      | cons b t' =>
        have hba : b = a := by
          have h2 := congrArg List.head? huv
          simpa using h2
        have hb := hc b (List.mem_cons_self b t')
        rw [hba] at hb
        exact absurd (List.mem_cons_self a p') hb
    | cons a' u' =>
      have htail : u' ++ t ++ v = p' ++ x := by
        have h2 := congrArg List.tail huv
        simpa using h2
      have hc' : ∀ c ∈ t, c ∉ p' := fun c hcin hmem => hc c hcin (List.mem_cons_of_mem a hmem)
      exact ih x hc' ⟨u', v, htail⟩

/-- A nonempty pattern, none of whose characters occurs in `s`, that occurs in
`x ++ s` occurs in `x`. -/
theorem sub_strip_right (t x s : List Char) (ht : t ≠ [])
    (hc : ∀ c ∈ t, c ∉ s) (h : t <:+: x ++ s) : t <:+: x := by
  obtain ⟨u, v, huv⟩ := h
  have hrev : t.reverse <:+: s.reverse ++ x.reverse := by
    refine ⟨v.reverse, u.reverse, ?_⟩
    have h2 := congrArg List.reverse huv
    simpa [List.reverse_append, List.append_assoc] using h2
  have ht' : t.reverse ≠ [] := by simpa using ht
  have hc' : ∀ c ∈ t.reverse, c ∉ s.reverse := by
    intro c hcin hmem
    exact hc c (List.mem_reverse.mp hcin) (List.mem_reverse.mp hmem)
  have h3 := sub_strip_left t.reverse ht' s.reverse x.reverse hc' hrev
  obtain ⟨u2, v2, h4⟩ := h3
  refine ⟨v2.reverse, u2.reverse, ?_⟩
  have h5 := congrArg List.reverse h4
  simpa [List.reverse_append, List.append_assoc] using h5

/-- A nonempty pattern whose characters avoid both a fixed front and a fixed
back part occurs in the middle part whenever it occurs in the whole. -/
theorem sub_strip_both (t pre mid suf : List Char) (ht : t ≠ [])
    (hpre : ∀ c ∈ t, c ∉ pre) (hsuf : ∀ c ∈ t, c ∉ suf)
    (h : t <:+: pre ++ mid ++ suf) : t <:+: mid := by
  have h1 : t <:+: pre ++ (mid ++ suf) := by
    simpa [List.append_assoc] using h
  have h2 := sub_strip_left t ht pre (mid ++ suf) hpre h1
  exact sub_strip_right t mid suf ht hsuf h2

/-- The ends of `A ++ mid ++ Z` carry characters of `A` resp. `Z`, so any
predicate false on `A` and `Z` is false on both ends. -/
theorem boundary_pred (p : Char → Bool) (A mid Z : List Char)
    (hA : A ≠ []) (hZ : Z ≠ [])
    (hAp : ∀ c ∈ A, p c = false) (hZp : ∀ c ∈ Z, p c = false) :
    (∀ a, (A ++ mid ++ Z).head? = some a → p a = false) ∧
    (∀ a, (A ++ mid ++ Z).getLast? = some a → p a = false) := by
  constructor
  · intro a h
    cases A with
    | nil => exact absurd rfl hA
    | cons b bs =>
      have hab : b = a := by simpa using h
      rw [← hab]
      exact hAp b (List.mem_cons_self b bs)
  · intro a h
    rw [← List.head?_reverse] at h
    have h2 : (Z.reverse ++ (mid.reverse ++ A.reverse)).head? = some a := by
      simpa [List.reverse_append, List.append_assoc] using h
    cases hzr : Z.reverse with
    | nil => exact absurd (by simpa using hzr) hZ
    | cons b bs =>
      rw [hzr] at h2
      have hab : b = a := by simpa using h2
      rw [← hab]
      exact hZp b (List.mem_reverse.mp (by rw [hzr]; exact List.mem_cons_self b bs))

/-- C1: the claim expects sanitization of the completion content
`"```dockerfile\nFROM node\n```"` to yield exactly `"FROM node"`; the code's
character-wise strip keeps the language tag, so the method returns
`"dockerfile\nFROM node"` instead. -/
theorem sanitize_fenced_language_tag_eval :
    extract_response (some "```dockerfile\nFROM node\n```") =
      Except.ok "dockerfile\nFROM node" ∧
    sanitize "```dockerfile\nFROM node\n```" ≠ "FROM node" := by
  constructor
  · show Except.ok (sanitize "```dockerfile\nFROM node\n```") = _
    have h : sanitize "```dockerfile\nFROM node\n```" = "dockerfile\nFROM node" := by
      decide
    rw [h]
  · decide

/-- C2: with an empty dockerfile the method performs no input validation at
all: it still issues exactly one provider call (built from the empty
dockerfile) and returns the sanitized completion normally, rather than
failing with an InputError before the provider call. -/
theorem empty_dockerfile_still_calls_provider :
    (add_multistage_builds_run "" [] fun _ => some "FROM node").1 =
      [Effect.providerCall (add_multistage_builds_messages "" [])] ∧
    (add_multistage_builds_run "" [] fun _ => some "FROM node").2 =
      Except.ok "FROM node" := by
  refine ⟨rfl, ?_⟩
  show Except.ok (sanitize "FROM node") = _
  rw [sanitize_plain]

/-- C3: an empty completion content is returned unchanged as an empty string
(no SanitizationError exists in the code), and a missing (`None`) content
raises a generic AttributeError at the `.strip()` call rather than an
explicit SanitizationError. -/
theorem empty_or_null_content_eval :
    extract_response (some "") = Except.ok "" ∧
    extract_response none = Except.error PyError.attributeError :=
  ⟨rfl, rfl⟩

/-- C6: every call sends exactly two messages, in order [system, user], and
the system message's content is the fixed constant prompt, independent of the
dockerfile and scripts inputs. -/
theorem add_multistage_builds_messages_structure (dockerfile : String)
    (scripts : List Script) :
    (add_multistage_builds_messages dockerfile scripts).map Message.role =
      [Role.system, Role.user] ∧
    (add_multistage_builds_messages dockerfile scripts).head? =
      some { role := Role.system, content := multistage_system_prompt } :=
  ⟨rfl, rfl⟩

/-- C9: the run of add_multistage_builds is a pure function of the dockerfile,
the scripts and the provider's completion for the constructed messages, and
its effect trace is exactly one provider invocation (no filesystem access, no
persistence is modelled because none occurs in the method body). -/
theorem add_multistage_builds_deterministic (dockerfile : String)
    (scripts : List Script) (f g : List Message → Option String)
    (h : f (add_multistage_builds_messages dockerfile scripts) =
         g (add_multistage_builds_messages dockerfile scripts)) :
    add_multistage_builds_run dockerfile scripts f =
      add_multistage_builds_run dockerfile scripts g ∧
    (add_multistage_builds_run dockerfile scripts f).1 =
      [Effect.providerCall (add_multistage_builds_messages dockerfile scripts)] := by
  refine ⟨?_, rfl⟩
  show ([Effect.providerCall (add_multistage_builds_messages dockerfile scripts)],
      extract_response (f (add_multistage_builds_messages dockerfile scripts))) =
    ([Effect.providerCall (add_multistage_builds_messages dockerfile scripts)],
      extract_response (g (add_multistage_builds_messages dockerfile scripts)))
  rw [h]

/-- Witness for C9 at concrete inputs: two extensionally agreeing providers
give identical runs. -/
theorem add_multistage_builds_deterministic_witness :
    add_multistage_builds_run "FROM node" [] (fun _ => some "FROM node") =
      add_multistage_builds_run "FROM node" []
        (fun m => if m.length = 2 then some "FROM node" else none) ∧
    (add_multistage_builds_run "FROM node" [] fun _ => some "FROM node").1 =
      [Effect.providerCall (add_multistage_builds_messages "FROM node" [])] :=
  add_multistage_builds_deterministic "FROM node" [] _ _ rfl

/-- C10 counterexample: for the completion content `"` `a` `"` the returned
string is `` "`a`" ``, which begins (and ends) with a backtick, refuting the
claim that the result never begins or ends with a whitespace or backtick
character. -/
theorem sanitize_boundary_backtick_possible :
    sanitize "` `a` `" = "`a`" ∧
    ((sanitize "` `a` `").data.head?.all isFenceChar) = true ∧
    ((sanitize "` `a` `").data.getLast?.all isFenceChar) = true := by
  refine ⟨by decide, by decide, by decide⟩

/-- C10 amended: for every provider completion content string, the returned
string neither begins nor ends with a whitespace character (the trailing
strip guarantees this); it can, however, begin or end with a backtick. -/
theorem sanitize_no_boundary_whitespace (x : String) :
    ((sanitize x).data.head?.all fun c => !pyWhitespace c) = true ∧
    ((sanitize x).data.getLast?.all fun c => !pyWhitespace c) = true := by
  constructor
  · cases hh : (sanitize x).data.head? with
    | none => rfl
    | some a =>
      show (!pyWhitespace a) = true
      simp [sanitize_head? x a hh]
  · cases hh : (sanitize x).data.getLast? with
    | none => rfl
    | some a =>
      show (!pyWhitespace a) = true
      simp [sanitize_getLast? x a hh]

/-- C7 counterexample: sanitization is not idempotent; on `"` `a` `"` one
application yields `` "`a`" `` and a second application yields `"a"`. -/
theorem sanitize_not_idempotent :
    sanitize (sanitize "` `a` `") ≠ sanitize "` `a` `" := by decide

/-- C7 amended: sanitization is idempotent on every string whose sanitized
form neither begins nor ends with a backtick character (in particular on all
already-clean input); the unrestricted claim fails because stripping
backticks can expose whitespace whose removal exposes new boundary
backticks. -/
theorem sanitize_idempotent_of_no_boundary_backtick (x : String)
    (h1 : ((sanitize x).data.head?.all fun c => !isFenceChar c) = true)
    (h2 : ((sanitize x).data.getLast?.all fun c => !isFenceChar c) = true) :
    sanitize (sanitize x) = sanitize x := by
  have hw1 : ∀ a, (sanitize x).data.head? = some a → pyWhitespace a = false :=
    fun a ha => sanitize_head? x a ha
  have hw2 : ∀ a, (sanitize x).data.getLast? = some a → pyWhitespace a = false :=
    fun a ha => sanitize_getLast? x a ha
  have hf1 : ∀ a, (sanitize x).data.head? = some a → isFenceChar a = false := by
    intro a ha
    rw [ha] at h1
    simpa using h1
  have hf2 : ∀ a, (sanitize x).data.getLast? = some a → isFenceChar a = false := by
    intro a ha
    rw [ha] at h2
    simpa using h2
  show pyStrip pyWhitespace (pyStrip isFenceChar (pyStrip pyWhitespace (sanitize x))) =
    sanitize x
  rw [pyStrip_eq_self pyWhitespace _ hw1 hw2, pyStrip_eq_self isFenceChar _ hf1 hf2,
    pyStrip_eq_self pyWhitespace _ hw1 hw2]

/-- Witness for the amended C7 at a concrete clean input. -/
theorem sanitize_idempotent_of_no_boundary_backtick_witness :
    sanitize (sanitize "FROM node") = sanitize "FROM node" :=
  sanitize_idempotent_of_no_boundary_backtick "FROM node" (by decide) (by decide)

/-- C4 counterexample: the rendered user instruction does not contain the
claimed single-line form `"1. script: \`npm run build\` commands: \`tsc\`"`;
the f-string places the commands part on a second line, so the instruction
contains the two-line form instead. -/
theorem scripts_entry_not_single_line :
    ¬ strContains (add_multistage_builds_user_prompt "FROM node"
        [{ script := "npm run build", commands := "tsc" }])
      "1. script: `npm run build` commands: `tsc`" ∧
    strContains (add_multistage_builds_user_prompt "FROM node"
        [{ script := "npm run build", commands := "tsc" }])
      "1. script: `npm run build`\ncommands: `tsc`\n" := by
  constructor
  · set_option maxRecDepth 40000 in decide
  · set_option maxRecDepth 40000 in decide

/-- C4 amended: for every non-empty scripts sequence the rendered user
instruction contains the fixed npm-scripts explanatory header, and, for each
index i, the i-th entry rendered verbatim as the two-line block
`"<i+1>. script: \`<script>\`\ncommands: \`<commands>\`\n"` (1-based numbering
in caller-supplied order); entries are joined by one newline, so consecutive
entries are separated by a blank line, not a single newline. -/
theorem user_prompt_scripts_entries (dockerfile : String) (scripts : List Script)
    (h : scripts ≠ []) :
    strContains (add_multistage_builds_user_prompt dockerfile scripts)
      prompt_npm_scripts_invoked ∧
    ∀ i, (hi : i < scripts.length) →
      strContains (add_multistage_builds_user_prompt dockerfile scripts)
        (script_description i (scripts.get ⟨i, hi⟩)) := by
  have hne : scripts.isEmpty = false := by simpa [List.isEmpty_iff] using h
  have hup : add_multistage_builds_user_prompt dockerfile scripts =
      multistage_user_prompt dockerfile ++ prompt_npm_scripts_invoked ++
        scripts_description scripts := by
    simp [add_multistage_builds_user_prompt, hne]
  constructor
  · rw [hup]
    show prompt_npm_scripts_invoked.data <:+: _
    refine ⟨(multistage_user_prompt dockerfile).data,
      (scripts_description scripts).data, ?_⟩
    simp [String.data_append]
  · intro i hi
    have h1 : strContains (scripts_description scripts)
        (script_description i (scripts.get ⟨i, hi⟩)) :=
      mem_join_linesep _ _ (script_description_mem scripts i hi)
    rw [hup]
    show (script_description i (scripts.get ⟨i, hi⟩)).data <:+: _
    have h3 := isInfix_append_left
      ((multistage_user_prompt dockerfile ++ prompt_npm_scripts_invoked).data) h1
    simpa [String.data_append, List.append_assoc] using h3

/-- Witness for the amended C4 at a concrete one-element scripts list. -/
theorem user_prompt_scripts_entries_witness :
    strContains (add_multistage_builds_user_prompt "FROM node"
        [{ script := "npm run build", commands := "tsc" }])
      prompt_npm_scripts_invoked ∧
    strContains (add_multistage_builds_user_prompt "FROM node"
        [{ script := "npm run build", commands := "tsc" }])
      (script_description 0 { script := "npm run build", commands := "tsc" }) := by
  have h := user_prompt_scripts_entries "FROM node"
    [{ script := "npm run build", commands := "tsc" }] (by simp)
  exact ⟨h.1, h.2 0 (by simp)⟩

/-- C5 counterexample: the universally quantified claim fails when the
dockerfile text itself contains the script-explanation header: embedding the
header string as the dockerfile makes the rendered instruction contain the
header although scripts is empty. -/
theorem user_prompt_header_collision :
    prompt_npm_scripts_invoked ≠ "" ∧
    strContains (add_multistage_builds_user_prompt prompt_npm_scripts_invoked [])
      prompt_npm_scripts_invoked := by
  constructor
  · decide
  · show prompt_npm_scripts_invoked.data <:+: _
    have hup : add_multistage_builds_user_prompt prompt_npm_scripts_invoked [] =
        "\nOptimize this Dockerfile:\n\n```\n" ++ prompt_npm_scripts_invoked ++
          "\n```\n" := rfl
    rw [hup]
    refine ⟨("\nOptimize this Dockerfile:\n\n```\n" : String).data,
      ("\n```\n" : String).data, ?_⟩
    simp [String.data_append]

/-- C5 amended: for every non-empty dockerfile whose text does not contain the
substring "NPM", with empty scripts, the rendered user instruction contains
the dockerfile verbatim inside a triple-backtick fenced block and does not
contain the script-explanation header; without the "NPM" restriction a
dockerfile embedding the header (or its tail) falsifies the claim. -/
theorem user_prompt_no_scripts_header (dockerfile : String)
    (_hne : dockerfile ≠ "") (hN : ¬ strContains dockerfile "NPM") :
    strContains (add_multistage_builds_user_prompt dockerfile [])
      ("```\n" ++ dockerfile ++ "\n```") ∧
    ¬ strContains (add_multistage_builds_user_prompt dockerfile [])
      prompt_npm_scripts_invoked := by
  have hup : add_multistage_builds_user_prompt dockerfile [] =
      "\nOptimize this Dockerfile:\n\n```\n" ++ dockerfile ++ "\n```\n" := rfl
  constructor
  · show ("```\n" ++ dockerfile ++ "\n```").data <:+:
      (add_multistage_builds_user_prompt dockerfile []).data
    rw [hup]
    refine ⟨("\nOptimize this Dockerfile:\n\n" : String).data, ("\n" : String).data, ?_⟩
    have e1 : ("\nOptimize this Dockerfile:\n\n```\n" : String).data =
        ("\nOptimize this Dockerfile:\n\n" : String).data ++ ("```\n" : String).data := by
      decide
    have e2 : ("\n```\n" : String).data =
        ("\n```" : String).data ++ ("\n" : String).data := by decide
    simp [String.data_append, e1, e2, List.append_assoc]
  · intro hcon
    have hNh : ("NPM" : String).data <:+: prompt_npm_scripts_invoked.data := by decide
    have h1 : ("NPM" : String).data <:+:
        (add_multistage_builds_user_prompt dockerfile []).data := hNh.trans hcon
    rw [hup] at h1
    have h2 : ("NPM" : String).data <:+:
        ("\nOptimize this Dockerfile:\n\n```\n" : String).data ++ dockerfile.data ++
          ("\n```\n" : String).data := by
      simpa [String.data_append] using h1
    have h3 := sub_strip_both ("NPM" : String).data
      ("\nOptimize this Dockerfile:\n\n```\n" : String).data dockerfile.data
      ("\n```\n" : String).data (by decide) (by decide) (by decide) h2
    exact hN h3

/-- Witness for the amended C5 at a concrete dockerfile. -/
theorem user_prompt_no_scripts_header_witness :
    strContains (add_multistage_builds_user_prompt "FROM node:18" [])
      ("```\n" ++ "FROM node:18" ++ "\n```") ∧
    ¬ strContains (add_multistage_builds_user_prompt "FROM node:18" [])
      prompt_npm_scripts_invoked :=
  user_prompt_no_scripts_header "FROM node:18" (by decide) (by decide)

/-- C8 counterexample: the sanitized result can still contain a markdown
code-fence delimiter: a triple backtick strictly inside the completion text is
not removed, since only boundary characters are stripped. -/
theorem sanitize_keeps_interior_fence :
    strContains (sanitize "FROM a\n```\nRUN b") "```" := by
  set_option maxRecDepth 40000 in decide

/-- C8 amended: if the completion text is a fenced block `"```" ++ body ++
"```"` whose body contains no backtick character, the returned string contains
no triple-backtick sequence; for arbitrary completion texts the claim fails
because interior fences survive sanitization. -/
theorem sanitize_fenced_body_no_fence (body : String)
    (h : body.data.all (fun c => !isFenceChar c) = true) :
    ¬ strContains (sanitize ("```" ++ body ++ "```")) "```" := by
  have hbody : ∀ c ∈ body.data, isFenceChar c = false := by
    intro c hc
    simpa using (List.all_eq_true.mp h) c hc
  by_cases hb0 : body.data = []
  · have hbe : body = "" := String.ext (by simpa using hb0)
    subst hbe
    decide
  · have hdataX : ("```" ++ body ++ "```" : String).data =
        ("```" : String).data ++ body.data ++ ("```" : String).data := by
      simp [String.data_append]
    have hbp := boundary_pred pyWhitespace ("```" : String).data body.data
      ("```" : String).data (by decide) (by decide) (by decide) (by decide)
    have hs1 : pyStrip pyWhitespace ("```" ++ body ++ "```") =
        "```" ++ body ++ "```" := by
      apply pyStrip_eq_self
      · intro a ha
        exact hbp.1 a (by rw [← hdataX]; exact ha)
      · intro a ha
        exact hbp.2 a (by rw [← hdataX]; exact ha)
    have dA : ("```" : String).data.dropWhile isFenceChar = [] := by decide
    have dArev : ("```" : String).data.reverse.dropWhile isFenceChar = [] := by decide
    have hbodydrop : body.data.dropWhile isFenceChar = body.data := by
      apply dropWhile_eq_self_of
      intro a ha
      exact hbody a (List.mem_of_mem_head? (by simp [ha]))
    have hbodyrevdrop : body.data.reverse.dropWhile isFenceChar = body.data.reverse := by
      apply dropWhile_eq_self_of
      intro a ha
      exact hbody a (List.mem_reverse.mp (List.mem_of_mem_head? (by simp [ha])))
    have hstep : (("```" : String).data ++ body.data ++
        ("```" : String).data).dropWhile isFenceChar =
        body.data ++ ("```" : String).data := by
      rw [List.append_assoc, List.dropWhile_append]
      simp only [dA, List.isEmpty_nil, if_true]
      rw [List.dropWhile_append]
      simp [hbodydrop, hb0]
    have hps : pyStripList isFenceChar ("```" ++ body ++ "```" : String).data =
        body.data := by
      unfold pyStripList
      rw [hdataX, hstep, List.reverse_append, List.dropWhile_append, dArev]
      simp [hbodyrevdrop]
    have hs2 : pyStrip isFenceChar ("```" ++ body ++ "```") = body := by
      apply String.ext
      exact hps
    have hsan : sanitize ("```" ++ body ++ "```") = pyStrip pyWhitespace body := by
      show pyStrip pyWhitespace (pyStrip isFenceChar (pyStrip pyWhitespace
        ("```" ++ body ++ "```"))) = _
      rw [hs1, hs2]
    rw [hsan]
    intro hcon
    obtain ⟨c, hc⟩ := List.exists_mem_of_ne_nil ("```" : String).data (by decide)
    have hc1 : c ∈ (pyStrip pyWhitespace body).data := hcon.subset hc
    have hc2 : c ∈ body.data :=
      (pyStripList_sublist pyWhitespace body.data).subset hc1
    have hfc : isFenceChar c = false := hbody c hc2
    have hft : isFenceChar c = true := by
      show (("```" : String).data.contains c) = true
      simpa using hc
    rw [hfc] at hft
    exact Bool.false_ne_true hft

/-- Witness for the amended C8 at a concrete fenced completion. -/
theorem sanitize_fenced_body_no_fence_witness :
    ¬ strContains (sanitize ("```" ++ "\nFROM node\n" ++ "```")) "```" :=
  sanitize_fenced_body_no_fence "\nFROM node\n" (by decide)

end Dockershrink
